import Mathlib

set_option autoImplicit false

namespace GridRank

/-- JavaScript Math.round on exact rationals: nearest integer, ties toward positive
infinity (Math.round(x) = floor(x + 0.5)).  The source computes with IEEE doubles;
all quantities reasoned about here are small exact values, modelled in ℚ. -/
def jsRound (q : ℚ) : ℤ :=
  ⌊q + 1 / 2⌋

/-- JavaScript `v || d` on an optional number: `undefined` and `0` are falsy. -/
def jsOrInt (v : Option ℤ) (d : ℤ) : ℤ :=
  match v with
  | some x => if x = 0 then d else x
  | none => d

/-- JavaScript `v || d` on an optional string: `undefined` and the empty string are falsy. -/
def jsOrStr (v : Option String) (d : String) : String :=
  match v with
  | some s => if s = "" then d else s
  | none => d

/-- Boolean list prefix test, by structural recursion so that concrete instances
reduce inside the kernel. -/
def isPrefixList : List Char → List Char → Bool
  | [], _ => true
  | _ :: _, [] => false
  | c :: cs, d :: ds => c == d && isPrefixList cs ds

/-- Lower-casing of a string through its character list (JavaScript toLowerCase on
the ASCII inputs this code handles). -/
def strToLower (s : String) : String :=
  String.mk (s.data.map Char.toLower)

/-- Test whether `s` starts with `t` (JavaScript startsWith). -/
def strStartsWith (s t : String) : Bool :=
  isPrefixList t.data s.data

/-- Test whether `s` ends with `t` (JavaScript endsWith). -/
def strEndsWith (s t : String) : Bool :=
  isPrefixList t.data.reverse s.data.reverse

/-- Drop the first `n` characters of `s`. -/
def strDrop (s : String) (n : ℕ) : String :=
  String.mk (s.data.drop n)

/-- Drop the last `n` characters of `s`. -/
def strDropRight (s : String) (n : ℕ) : String :=
  String.mk (s.data.take (s.data.length - n))

/-- Characters of `s` before the first occurrence of `c`; the whole string when `c` is
absent.  This is JavaScript `s.split(c)[0]` for a one-character separator. -/
def strUpTo (s : String) (c : Char) : String :=
  String.mk (s.data.takeWhile (fun d => !(d == c)))

/-- Suffix of `l` after the first occurrence of `sep`, or `none` when `sep` never
occurs. -/
def afterSeq (sep : List Char) : List Char → Option (List Char)
  | [] => if sep.isEmpty then some [] else none
  | c :: rest =>
    if isPrefixList sep (c :: rest) then some ((c :: rest).drop sep.length)
    else afterSeq sep rest

/-- JavaScript String.prototype.includes: substring containment. -/
def jsIncludes (s t : String) : Bool :=
  s.data.tails.any (fun suf => isPrefixList t.data suf)

/-- Hostname of a URL string, modelling JavaScript `new URL(u).hostname` for inputs of
the shape `scheme://host[/path][?query][#fragment][:port]`: the host is the run of
characters after the first "://" and before the first of '/', '?', '#', ':'.  `none`
models `new URL` throwing (no "://" separator, or an empty host part), which
extractDomain catches. -/
def urlHostname (u : String) : Option String :=
  match afterSeq ("://".data) u.data with
  | some rest =>
    let host := rest.takeWhile (fun c => !(c == '/' || c == '?' || c == '#' || c == ':'))
    if host.isEmpty then none else some (String.mk host)
  | none => none

/-- Domain canonicalizer, translated from extractDomain in
src/dashboard-src/server/serper.ts: default an "http://" scheme when the string does
not start with "http", take the parsed URL's hostname lower-cased with one leading
"www." removed; if URL parsing fails, fall back to the lower-cased raw input with one
leading "www." removed.  Malformed input never raises. -/
def extractDomain (url : String) : String :=
  let normalizedUrl := if strStartsWith url ("http") then url else "http://" ++ url
  match urlHostname normalizedUrl with
  | some host =>
    let h := strToLower host
    if strStartsWith h ("www.") then strDrop h 4 else h
  | none =>
    let h := strToLower url
    if strStartsWith h ("www.") then strDrop h 4 else h

/-- Organic-result domain matcher, translated from domainMatches in
src/dashboard-src/server/serper.ts: an empty result link never matches; otherwise the
normalized result domain must equal the normalized target domain or end with
"." followed by it. -/
def domainMatches (resultLink targetDomain : String) : Bool :=
  if resultLink = "" then false
  else
    let resultDomain := extractDomain resultLink
    let targetDomainClean := extractDomain targetDomain
    resultDomain == targetDomainClean || strEndsWith resultDomain ("." ++ targetDomainClean)

/-- Website normalizer of the grid-search route (part_002 lines 458-467): lower-case,
strip one leading "http://" or "https://", one leading "www.", one trailing "/", then
keep the part before the first "/" and before the first "?".  JavaScript `!url` treats
an absent value and the empty string alike. -/
def normalizeWebsite (url : Option String) : String :=
  match url with
  | none => ""
  | some u =>
    if u = "" then ""
    else
      let s0 := strToLower u
      let s1 :=
        if strStartsWith s0 ("https://") then strDrop s0 8
        else if strStartsWith s0 ("http://") then strDrop s0 7
        else s0
      let s2 := if strStartsWith s1 ("www.") then strDrop s1 4 else s1
      let s3 := if strEndsWith s2 ("/") then strDropRight s2 1 else s2
      strUpTo (strUpTo s3 '/') '?'

/-- Raw place entry from the maps provider, as consumed by searchGridPoint in the
grid-search route (src/unnamed/part_002).  Every field may be absent in the JSON. -/
structure RawPlace where
  position : Option ℤ
  title : Option String
  address : Option String
  rating : Option ℚ
  ratingCount : Option ℤ
  placeType : Option String
  website : Option String
  phoneNumber : Option String
  latitude : Option ℚ
  longitude : Option ℚ
deriving DecidableEq, Repr

/-- Entry of the `places` array of a point outcome: the route maps each raw place
through JavaScript `||` defaults (part_002 lines 556-567). -/
structure OutPlace where
  position : ℤ
  title : String
  address : String
  rating : Option ℚ
  ratingCount : Option ℤ
  placeType : String
  website : String
  phoneNumber : String
  latitude : Option ℚ
  longitude : Option ℚ
deriving DecidableEq, Repr

/-- Defaulted projection of a raw place into the outcome's `places` list
(part_002 lines 556-567). -/
def RawPlace.toOut (p : RawPlace) : OutPlace where
  position := jsOrInt p.position 0
  title := jsOrStr p.title ""
  address := jsOrStr p.address ""
  rating := p.rating
  ratingCount := p.ratingCount
  placeType := jsOrStr p.placeType ""
  website := jsOrStr p.website ""
  phoneNumber := jsOrStr p.phoneNumber ""
  latitude := p.latitude
  longitude := p.longitude

/-- Outcome of searching one grid point (the object literals built in
searchGridPoint, part_002 lines 495-505, 548-568 and 571-581).
`matchedPlace` copies the raw provider fields verbatim (lines 530-541). -/
structure PointOutcome where
  pointId : String
  lat : ℚ
  lng : ℚ
  row : ℤ
  col : ℤ
  rank : Option ℤ
  matchedPlace : Option RawPlace
  places : List OutPlace
  error : Option String := none
deriving DecidableEq, Repr

/-- Summary object of the grid-search response (part_002 lines 619-629). -/
structure GridSearchSummary where
  avgRank : Option ℚ
  foundCount : ℕ
  notFoundCount : ℤ
  top3Count : ℕ
  top3Percent : ℤ
  top10Count : ℕ
  top10Percent : ℤ
  top20Count : ℕ
  top20Percent : ℤ
deriving DecidableEq, Repr

/-- Aggregation and summary builder, translated from the grid-search route
(part_002 lines 598-629): rankedResults filters outcomes with non-null rank;
avgRank is their mean, rounded to one decimal by Math.round(x*10)/10 behind a
JavaScript truthiness test (a 0 average would render as null); top-K counts are
over rankedResults, and every percentage divides by the total submitted point
count. -/
def buildSummary (results : List PointOutcome) (totalPoints : ℕ) : GridSearchSummary :=
  let rankedResults := results.filter (fun r => r.rank.isSome)
  let avgRank : Option ℚ :=
    if rankedResults.length > 0 then
      some ((rankedResults.map (fun r => ((r.rank.getD 0 : ℤ) : ℚ))).sum / (rankedResults.length : ℚ))
    else none
  let top3Count := (rankedResults.filter (fun r => r.rank.getD 0 ≤ 3)).length
  let top10Count := (rankedResults.filter (fun r => r.rank.getD 0 ≤ 10)).length
  let top20Count := (rankedResults.filter (fun r => r.rank.getD 0 ≤ 20)).length
  { avgRank :=
      match avgRank with
      | some a => if a = 0 then none else some ((jsRound (a * 10) : ℚ) / 10)
      | none => none
    foundCount := rankedResults.length
    notFoundCount := (totalPoints : ℤ) - (rankedResults.length : ℤ)
    top3Count := top3Count
    top3Percent := jsRound ((top3Count : ℚ) / (totalPoints : ℚ) * 100)
    top10Count := top10Count
    top10Percent := jsRound ((top10Count : ℚ) / (totalPoints : ℚ) * 100)
    top20Count := top20Count
    top20Percent := jsRound ((top20Count : ℚ) / (totalPoints : ℚ) * 100) }

/-- Maximum page depth of the trackers (MAX_PAGES in serper.ts). -/
def MAX_PAGES : ℕ := 5

/-- Organic search result item (SerperOrganicResult as produced by
fetchSerperResults in serper.ts). -/
structure SerperOrganicResult where
  title : String
  link : String
  snippet : Option String
  position : ℤ
deriving DecidableEq, Repr

/-- Behaviour of one provider page fetch as observed by a tracker: `ok` carries the
page's ordered item list (fetchSerperResults always reports resultsOnPage equal to
that list's length); `err` models the fetch throwing, carrying the thrown Error's
message, with `none` standing for a thrown non-Error value. -/
inductive FetchOutcome (α : Type) where
  | ok (items : List α)
  | err (msg : Option String)
deriving DecidableEq, Repr

/-- Message recovered from a caught exception in the trackers
(`error instanceof Error ? error.message : "Unknown error"`). -/
def caughtMessage : Option String → String
  | some m => m
  | none => "Unknown error"

/-- Result shape of the organic Single-Point Rank Tracker
(RankingSearchResult in serper.ts). -/
structure RankingSearchResult where
  found : Bool
  keyword : String
  page : Option ℕ
  positionOnPage : Option ℕ
  overallPosition : Option ℕ
  url : Option String
  title : Option String
  error : Option String := none
deriving DecidableEq, Repr

/-- The all-null not-found result of trackKeywordRanking. -/
def trackNotFound (keyword : String) : RankingSearchResult where
  found := false
  keyword := keyword
  page := none
  positionOnPage := none
  overallPosition := none
  url := none
  title := none
  error := none

/-- Inner loop of trackKeywordRanking over one page's results: the overall position
counter is incremented for every item in page order, and the scan stops at the first
item whose link matches the target domain, yielding its 1-based position on the page,
the overall position, and the item. -/
def scanResults (targetDomain : String) :
    List SerperOrganicResult → ℕ → ℕ → Option (ℕ × ℕ × SerperOrganicResult)
  | [], _, _ => none
  | item :: rest, count, idx =>
    if domainMatches item.link targetDomain then some (idx + 1, count + 1, item)
    else scanResults targetDomain rest (count + 1) (idx + 1)

/-- Page loop of trackKeywordRanking (serper.ts lines 106-144), with the remaining
page budget as structural fuel and the pages actually fetched recorded alongside the
result.  A failed fetch is caught and turned into the not-found result with an error
naming the failing page; an empty page ends the scan; otherwise the loop continues to
the next page with the accumulated overall position count. -/
def trackLoop (fetch : ℕ → FetchOutcome SerperOrganicResult) (keyword targetDomain : String) :
    ℕ → ℕ → ℕ → RankingSearchResult × List ℕ
  | 0, _, _ => (trackNotFound keyword, [])
  | fuel + 1, page, count =>
    match fetch page with
    | .err e =>
      ({ found := false, keyword := keyword, page := none, positionOnPage := none,
         overallPosition := none, url := none, title := none,
         error := some ("Failed at page " ++ toString page ++ ": " ++ caughtMessage e) },
       [page])
    | .ok results =>
      match scanResults targetDomain results count 0 with
      | some (pos, overall, item) =>
        ({ found := true, keyword := keyword, page := some page, positionOnPage := some pos,
           overallPosition := some overall, url := some item.link, title := some item.title,
           error := none }, [page])
      | none =>
        if results.length = 0 then (trackNotFound keyword, [page])
        else
          let r := trackLoop fetch keyword targetDomain fuel (page + 1) (count + results.length)
          (r.1, page :: r.2)

/-- Organic Single-Point Rank Tracker (trackKeywordRanking in serper.ts), returning
the result together with the list of pages requested from the provider. -/
def trackKeywordRanking (fetch : ℕ → FetchOutcome SerperOrganicResult)
    (keyword targetDomain : String) : RankingSearchResult × List ℕ :=
  trackLoop fetch keyword targetDomain MAX_PAGES 1 0

/-- Place entry of the places provider (SerperPlacesResponse in serper.ts). -/
structure SerperPlace where
  title : String
  address : Option String
  website : Option String
  rating : Option ℚ
  ratingCount : Option ℤ
  position : ℤ
deriving DecidableEq, Repr

/-- Matching entry collected by trackLocalRanking (matchingPlaces element). -/
structure MatchingPlace where
  title : String
  address : Option String
  website : Option String
  rating : Option ℚ
  reviews : Option ℤ
  position : ℕ
deriving DecidableEq, Repr

/-- JavaScript `v || null` on an optional string: absent and empty both give null. -/
def jsNullStr (v : Option String) : Option String :=
  match v with
  | some s => if s = "" then none else some s
  | none => none

/-- JavaScript `v || null` on an optional rational: absent and zero both give null. -/
def jsNullRat (v : Option ℚ) : Option ℚ :=
  match v with
  | some x => if x = 0 then none else some x
  | none => none

/-- JavaScript `v || null` on an optional integer: absent and zero both give null. -/
def jsNullInt (v : Option ℤ) : Option ℤ :=
  match v with
  | some x => if x = 0 then none else some x
  | none => none

/-- JavaScript truthiness test `place.website && domainMatches(place.website, td)`
from trackLocalRanking's inner loop. -/
def placeMatchTest (p : SerperPlace) (targetDomain : String) : Bool :=
  match p.website with
  | some w => if w = "" then false else domainMatches w targetDomain
  | none => false

/-- Inner loop of trackLocalRanking over one page: every listing advances the overall
position counter, and listings whose website matches the target are collected tagged
with that overall cross-page position (serper.ts lines 285-300).  The scan never stops
at a match. -/
def scanPlaces (targetDomain : String) : List SerperPlace → ℕ → List MatchingPlace
  | [], _ => []
  | p :: rest, count =>
    if placeMatchTest p targetDomain then
      { title := p.title, address := jsNullStr p.address, website := jsNullStr p.website,
        rating := jsNullRat p.rating, reviews := jsNullInt p.ratingCount,
        position := count + 1 } :: scanPlaces targetDomain rest (count + 1)
    else scanPlaces targetDomain rest (count + 1)

/-- Result shape of the local-pack tracker (LocalRankingSearchResult in serper.ts). -/
structure LocalRankingSearchResult where
  found : Bool
  keyword : String
  totalPlaces : ℕ
  matchingPlaces : List MatchingPlace
  error : Option String := none
deriving DecidableEq, Repr

/-- State threaded through the local-pack page loop: listings scanned so far, matches
collected so far, the error of a failed fetch if one occurred, and the pages fetched. -/
structure LocalScanState where
  totalPlaces : ℕ
  matchingPlaces : List MatchingPlace
  error : Option String
  trace : List ℕ
deriving DecidableEq, Repr

/-- Page loop of trackLocalRanking (serper.ts lines 278-301) with the remaining page
budget as structural fuel: an empty page ends the scan, a throwing fetch is caught by
the try/catch wrapping the whole loop (keeping the listings and matches accumulated so
far), and a successful page is scanned in full before moving on. -/
def localLoop (fetch : ℕ → FetchOutcome SerperPlace) (targetDomain : String) :
    ℕ → ℕ → ℕ → List MatchingPlace → LocalScanState
  | 0, _, total, matching =>
    { totalPlaces := total, matchingPlaces := matching, error := none, trace := [] }
  | fuel + 1, page, total, matching =>
    match fetch page with
    | .err e =>
      { totalPlaces := total, matchingPlaces := matching,
        error := some (caughtMessage e), trace := [page] }
    | .ok places =>
      if places.length = 0 then
        { totalPlaces := total, matchingPlaces := matching, error := none, trace := [page] }
      else
        let r := localLoop fetch targetDomain fuel (page + 1) (total + places.length)
          (matching ++ scanPlaces targetDomain places total)
        { r with trace := page :: r.trace }

/-- Local-pack Single-Point Rank Tracker (trackLocalRanking in serper.ts), returning
the result together with the pages requested.  A missing API credential throws before
the try block, so it propagates to the caller; a fetch failure inside the loop is
caught and reported as found=false with the matches and listing count accumulated so
far. -/
def trackLocalRanking (apiKey : Option String) (fetch : ℕ → FetchOutcome SerperPlace)
    (keyword targetDomain : String) : Except String (LocalRankingSearchResult × List ℕ) :=
  match apiKey with
  | none => Except.error ("SERPER_API_KEY environment variable is not set")
  | some _ =>
    let s := localLoop fetch targetDomain MAX_PAGES 1 0 []
    match s.error with
    | some msg =>
      Except.ok ({ found := false, keyword := keyword, totalPlaces := s.totalPlaces,
                   matchingPlaces := s.matchingPlaces, error := some msg }, s.trace)
    | none =>
      Except.ok ({ found := decide (0 < s.matchingPlaces.length), keyword := keyword,
                   totalPlaces := s.totalPlaces, matchingPlaces := s.matchingPlaces,
                   error := none }, s.trace)

/-- Distance unit of the grid configuration. -/
inductive DistanceUnit where
  | meters
  | miles
deriving DecidableEq, Repr

/-- Grid point produced by the client generator (calculateGridPoints in
src/client/src/pages/map-page.tsx). -/
structure GridPoint where
  id : String
  lat : ℚ
  lng : ℚ
  row : ℤ
  col : ℤ
  isSelected : Bool
  isCenter : Bool
deriving DecidableEq, Repr

/-- Integers -half, ..., +half in order, modelling the source's
`for (let v = -half; v <= half; v++)` loops. -/
def offsetRange (half : ℕ) : List ℤ :=
  (List.range (2 * half + 1)).map (fun (k : ℕ) => (k : ℤ) - (half : ℤ))

/-- The object literal pushed for offsets (row, col) in the body of
calculateGridPoints's nested loops (map-page.tsx lines 136-148). -/
def gridMk (centerLat centerLng latOffset lngOffset : ℚ) (row col : ℤ) : GridPoint where
  id := toString row ++ "_" ++ toString col
  lat := centerLat + (row : ℚ) * latOffset
  lng := centerLng + (col : ℚ) * lngOffset
  row := row
  col := col
  isSelected := true
  isCenter := row == 0 && col == 0

/-- The spacing converted to meters (`spacing * 1609.34` for miles), from
calculateGridPoints line 129. -/
def spacingMeters (spacing : ℚ) (distanceUnit : DistanceUnit) : ℚ :=
  match distanceUnit with
  | .miles => spacing * 1609.34
  | .meters => spacing

/-- Geo-Grid Generator, translated from calculateGridPoints in map-page.tsx.  The
factor cos(centerLat·π/180) is transcendental, so its value is supplied as the
parameter `cosCenterLat`; the remaining arithmetic follows the source exactly, over ℚ
where the source uses IEEE doubles.  Points are produced row-major with `row` as the
outer loop, `row` and `col` each running from -floor(gridSize/2) to
+floor(gridSize/2); the point with offsets (0,0) is flagged as the center and every
point starts selected. -/
def calculateGridPoints (centerLat centerLng spacing : ℚ) (gridSize : ℕ)
    (distanceUnit : DistanceUnit) (cosCenterLat : ℚ) : List GridPoint :=
  let half : ℕ := gridSize / 2
  let spacingInMeters : ℚ := spacingMeters spacing distanceUnit
  let latOffset := spacingInMeters / 111320
  let lngOffset := spacingInMeters / (111320 * cosCenterLat)
  (offsetRange half).flatMap (fun (row : ℤ) =>
    (offsetRange half).map (fun (col : ℤ) =>
      gridMk centerLat centerLng latOffset lngOffset row col))

/-- Grid point as submitted to the grid-search route (the fields searchGridPoint in
part_002 reads from each element of req.body.gridPoints). -/
structure GridPointIn where
  id : String
  lat : ℚ
  lng : ℚ
  row : ℤ
  col : ℤ
deriving DecidableEq, Repr

/-- Behaviour of the maps-provider call for one grid point: the request (or JSON
parse) throwing, a non-success HTTP response with its status, or a parsed payload
whose places array is `places` (an absent array is modelled by the empty list, as in
`data.places || []`). -/
inductive GridFetch where
  | throwEx (msg : Option String)
  | httpError (status : ℕ)
  | ok (places : List RawPlace)
deriving DecidableEq, Repr

/-- Message of an exception caught in searchGridPoint
(`error?.message || "Unknown error"`): a missing or empty message falls back. -/
def gridCaughtMessage : Option String → String
  | some m => if m = "" then "Unknown error" else m
  | none => "Unknown error"

/-- Matching loop of searchGridPoint (part_002 lines 524-546): walk the places in
order and stop at the first whose normalized website domain is non-empty and contains
the target domain or is contained in it (bidirectional substring containment); the
rank is that place's provider position, or its 1-based index when the position is
absent or zero, and the matched place's raw fields are kept. -/
def findGridMatch (targetDomain : String) : List RawPlace → ℕ → Option (ℤ × RawPlace)
  | [], _ => none
  | p :: rest, i =>
    let placeDomain := normalizeWebsite p.website
    if !(placeDomain == "") &&
        (jsIncludes placeDomain targetDomain || jsIncludes targetDomain placeDomain) then
      some (jsOrInt p.position ((i : ℤ) + 1), p)
    else findGridMatch targetDomain rest (i + 1)

/-- Per-point search of the grid-search route (searchGridPoint, part_002 lines
471-583): a thrown exception or a non-success response becomes a rank-null outcome
with an error string; otherwise the matching loop runs only when the normalized
target domain is non-empty and places were returned, and the outcome carries at most
the first 20 places with defaulted fields. -/
def searchGridPoint (point : GridPointIn) (targetDomain : String)
    (behaviour : GridFetch) : PointOutcome :=
  match behaviour with
  | .throwEx m =>
    { pointId := point.id, lat := point.lat, lng := point.lng,
      row := point.row, col := point.col,
      rank := none, matchedPlace := none, places := [],
      error := some (gridCaughtMessage m) }
  | .httpError status =>
    { pointId := point.id, lat := point.lat, lng := point.lng,
      row := point.row, col := point.col,
      rank := none, matchedPlace := none, places := [],
      error := some ("API error: " ++ toString status) }
  | .ok places =>
    let m :=
      if !(targetDomain == "") && decide (0 < places.length) then
        findGridMatch targetDomain places 0
      else none
    { pointId := point.id, lat := point.lat, lng := point.lng,
      row := point.row, col := point.col,
      rank := m.map (fun x => x.1), matchedPlace := m.map (fun x => x.2),
      places := (places.take 20).map RawPlace.toOut, error := none }

/-- Batch loop of the grid-search route (part_002 lines 585-596), with the number of
remaining iterations as structural fuel (the loop advances 5 points per iteration, so
the list's length bounds it): points are sliced 5 at a time in submission order and
Promise.all gathers each batch's outcomes index-aligned with the batch.  The 200ms
inter-batch pause affects no computed value and is not modelled. -/
def runBatchesAux (f : GridPointIn → PointOutcome) : ℕ → List GridPointIn → List PointOutcome
  | 0, _ => []
  | _, [] => []
  | fuel + 1, points => (points.take 5).map f ++ runBatchesAux f fuel (points.drop 5)

/-- Grid Batch Orchestrator: the batch loop started on the submitted points. -/
def runBatches (f : GridPointIn → PointOutcome) (points : List GridPointIn) : List PointOutcome :=
  runBatchesAux f points.length points

/-- Body of a grid-search request (the req.body fields read by the route).  `none`
models an absent field; the invalid-type branches of the source's checks (a non-array
gridPoints, a non-string keyword) behave as the absent case and are subsumed by
`none`. -/
structure GridSearchRequest where
  gridPoints : Option (List GridPointIn)
  keyword : Option String
  targetWebsite : Option String
deriving DecidableEq, Repr

/-- Successful response body of the grid-search route (part_002 lines 615-631). -/
structure GridSearchBody where
  keyword : String
  targetWebsite : Option String
  totalPoints : ℕ
  summary : GridSearchSummary
  results : List PointOutcome
deriving DecidableEq, Repr

/-- Response of the grid-search route, with the HTTP branches of part_002 lines
429-456 explicit; `creditCharged` records whether the per-user credit map was present
and therefore decremented by one (lines 607-613), which happens exactly on the
success path. -/
inductive GridSearchResponse where
  | unauthorized
  | badRequest (error : String)
  | serverError (error : String)
  | success (creditCharged : Bool) (body : GridSearchBody)
deriving DecidableEq, Repr

/-- Grid-search route handler (part_002 lines 429-631): session check, then
validation of gridPoints and keyword only, then the API-key check, then
normalization of the target website, the batched per-point searches, the summary,
and the credit decrement on the success path. -/
def gridSearchRoute (userPresent creditsPresent apiKeyPresent : Bool)
    (req : GridSearchRequest) (behaviour : GridPointIn → GridFetch) : GridSearchResponse :=
  if userPresent = false then .unauthorized
  else
    match req.gridPoints with
    | none => .badRequest ("Missing or invalid grid points")
    | some gps =>
      if gps.isEmpty then .badRequest ("Missing or invalid grid points")
      else
        match req.keyword with
        | none => .badRequest ("Missing search keyword")
        | some kw =>
          if kw = "" then .badRequest ("Missing search keyword")
          else if apiKeyPresent = false then .serverError ("Serper API key not configured")
          else
            let targetDomain := normalizeWebsite req.targetWebsite
            let results := runBatches (fun p => searchGridPoint p targetDomain (behaviour p)) gps
            .success creditsPresent
              { keyword := kw, targetWebsite := req.targetWebsite, totalPoints := gps.length,
                summary := buildSummary results gps.length, results := results }

/-- Point outcome carrying only a rank, for exercising the summary builder. -/
def rankOutcome (r : Option ℤ) : PointOutcome where
  pointId := "0_0"
  lat := 0
  lng := 0
  row := 0
  col := 0
  rank := r
  matchedPlace := none
  places := []
  error := none

theorem length_flatMap_map {α β γ : Type} (f : α → β → γ) (l₁ : List α) (l₂ : List β) :
    (l₁.flatMap (fun a => l₂.map (f a))).length = l₁.length * l₂.length := by
  induction l₁ with
  | nil => simp
  | cons a l ih => simp [List.flatMap_cons, ih, Nat.succ_mul, Nat.add_comm]

theorem getElem_flatMap_map {α β γ : Type} (f : α → β → γ) (l₁ : List α) (l₂ : List β)
    (n : ℕ) (hlen : l₂.length = n)
    (i : ℕ) (hn : 0 < n) (h : i < (l₁.flatMap (fun a => l₂.map (f a))).length)
    (h₁ : i / n < l₁.length) (h₂ : i % n < l₂.length) :
    (l₁.flatMap (fun a => l₂.map (f a)))[i] =
      f (l₁[i / n]) (l₂[i % n]) := by
  subst hlen
  induction l₁ generalizing i with
  | nil => simp at h₁
  | cons a l ih =>
    by_cases hi : i < l₂.length
    · have hd : i / l₂.length = 0 := Nat.div_eq_of_lt hi
      have hm : i % l₂.length = i := Nat.mod_eq_of_lt hi
      simp only [List.flatMap_cons]
      rw [List.getElem_append_left (by simpa using hi)]
      simp [hd, hm]
    · push_neg at hi
      have hsub : i - l₂.length + l₂.length = i := Nat.sub_add_cancel hi
      have hdiv : i / l₂.length = (i - l₂.length) / l₂.length + 1 := by
        conv_lhs => rw [← hsub]
        rw [Nat.add_div_right _ hn]
      have hmod : i % l₂.length = (i - l₂.length) % l₂.length := by
        conv_lhs => rw [← hsub]
        rw [Nat.add_mod_right]
      have h₁' : (i - l₂.length) / l₂.length < l.length := by
        rw [hdiv] at h₁
        simp only [List.length_cons] at h₁
        omega
      have h₂' : (i - l₂.length) % l₂.length < l₂.length := Nat.mod_lt _ hn
      have hbound : i - l₂.length < (l.flatMap (fun a => l₂.map (f a))).length := by
        rw [length_flatMap_map]
        exact (Nat.div_lt_iff_lt_mul hn).mp h₁'
      have hrec := ih (i - l₂.length) hbound h₁' h₂'
      simp only [List.flatMap_cons]
      rw [List.getElem_append_right (by simpa using hi)]
      simp only [List.length_map]
      rw [hrec]
      simp only [hdiv, hmod, List.getElem_cons_succ]

theorem length_offsetRange (half : ℕ) : (offsetRange half).length = 2 * half + 1 := by
  rw [offsetRange, List.length_map, List.length_range]

theorem getElem_offsetRange (half : ℕ) (i : ℕ) (h : i < (offsetRange half).length) :
    (offsetRange half)[i] = (i : ℤ) - (half : ℤ) := by
  simp only [offsetRange, List.getElem_map, List.getElem_range]

theorem countP_flatMap {α β : Type} (p : β → Bool) (l : List α) (g : α → List β) :
    (l.flatMap g).countP p = (l.map (fun a => (g a).countP p)).sum := by
  induction l with
  | nil => simp
  | cons a t ih => simp [List.flatMap_cons, List.countP_append, ih]

theorem sum_map_ite_zero (l : List ℤ) :
    (l.map (fun r => if r = 0 then (1 : ℕ) else 0)).sum = l.countP (fun r => r == 0) := by
  induction l with
  | nil => simp
  | cons a t ih => by_cases h : a = 0 <;> simp [List.countP_cons, ih, h, Nat.add_comm]

theorem countP_zero_offsetRange (half : ℕ) :
    (offsetRange half).countP (fun c => c == 0) = 1 := by
  rw [offsetRange, List.countP_map]
  have h1 : List.countP ((fun c => c == 0) ∘ fun k : ℕ => (k : ℤ) - (half : ℤ))
      (List.range (2 * half + 1)) =
      List.countP (fun k : ℕ => k == half) (List.range (2 * half + 1)) := by
    apply List.countP_congr
    intro x hx
    simp only [Function.comp, beq_iff_eq]
    constructor
    · intro hx0
      omega
    · intro hx0
      omega
  rw [h1, ← List.count_eq_countP]
  exact List.count_eq_one_of_mem (List.nodup_range _) (List.mem_range.mpr (by omega))

/-- The generator's body as the explicit row-major double comprehension over
gridMk (definitional unfolding of calculateGridPoints). -/
theorem calculateGridPoints_eq (centerLat centerLng spacing cosCenterLat : ℚ)
    (gridSize : ℕ) (u : DistanceUnit) :
    calculateGridPoints centerLat centerLng spacing gridSize u cosCenterLat =
      (offsetRange (gridSize / 2)).flatMap (fun (row : ℤ) =>
        (offsetRange (gridSize / 2)).map (fun (col : ℤ) =>
          gridMk centerLat centerLng
            (spacingMeters spacing u / 111320)
            (spacingMeters spacing u / (111320 * cosCenterLat)) row col)) := rfl

theorem gridShape_length (centerLat centerLng lo ln : ℚ) (half : ℕ) :
    ((offsetRange half).flatMap (fun (row : ℤ) =>
      (offsetRange half).map (fun (col : ℤ) => gridMk centerLat centerLng lo ln row col))).length
      = (2 * half + 1) * (2 * half + 1) := by
  rw [length_flatMap_map, length_offsetRange]

theorem gridShape_getElem (centerLat centerLng lo ln : ℚ) (half : ℕ) (i : ℕ)
    (hi : i < ((offsetRange half).flatMap (fun (row : ℤ) =>
      (offsetRange half).map (fun (col : ℤ) => gridMk centerLat centerLng lo ln row col))).length) :
    ((offsetRange half).flatMap (fun (row : ℤ) =>
      (offsetRange half).map (fun (col : ℤ) => gridMk centerLat centerLng lo ln row col)))[i]
      = gridMk centerLat centerLng lo ln
          (((i / (2 * half + 1) : ℕ) : ℤ) - (half : ℤ))
          (((i % (2 * half + 1) : ℕ) : ℤ) - (half : ℤ)) := by
  have hi' : i < (2 * half + 1) * (2 * half + 1) := by
    rw [← gridShape_length centerLat centerLng lo ln half]
    exact hi
  have hn : 0 < 2 * half + 1 := by omega
  have h₁ : i / (2 * half + 1) < (offsetRange half).length := by
    rw [length_offsetRange, Nat.div_lt_iff_lt_mul hn]
    exact hi'
  have h₂ : i % (2 * half + 1) < (offsetRange half).length := by
    rw [length_offsetRange]
    exact Nat.mod_lt _ hn
  rw [getElem_flatMap_map _ _ _ _ (length_offsetRange half) _ hn hi h₁ h₂,
    getElem_offsetRange, getElem_offsetRange]

theorem gridShape_countP (centerLat centerLng lo ln : ℚ) (half : ℕ) :
    ((offsetRange half).flatMap (fun (row : ℤ) =>
      (offsetRange half).map (fun (col : ℤ) => gridMk centerLat centerLng lo ln row col))).countP
      (fun p => p.isCenter) = 1 := by
  rw [countP_flatMap]
  have hinner : ∀ r : ℤ,
      ((offsetRange half).map (fun (col : ℤ) => gridMk centerLat centerLng lo ln r col)).countP
        (fun p => p.isCenter) = if r = 0 then 1 else 0 := by
    intro r
    rw [List.countP_map]
    by_cases hr : r = 0
    · subst hr
      have hc : ((fun p : GridPoint => p.isCenter) ∘
          fun (col : ℤ) => gridMk centerLat centerLng lo ln 0 col) = (fun c : ℤ => c == 0) := by
        funext c
        simp [gridMk]
      rw [hc, countP_zero_offsetRange]
      simp
    · have hc : ((fun p : GridPoint => p.isCenter) ∘
          fun (col : ℤ) => gridMk centerLat centerLng lo ln r col) = (fun _ : ℤ => false) := by
        funext c
        simp [gridMk, hr]
      rw [hc]
      simp [hr, List.countP_false]
  rw [List.map_congr_left (fun r _ => hinner r), sum_map_ite_zero, countP_zero_offsetRange]

theorem gridShape_mem (centerLat centerLng lo ln : ℚ) (half : ℕ) :
    ∀ p ∈ (offsetRange half).flatMap (fun (row : ℤ) =>
      (offsetRange half).map (fun (col : ℤ) => gridMk centerLat centerLng lo ln row col)),
      (p.isCenter = true →
        p.row = 0 ∧ p.col = 0 ∧ p.lat = centerLat ∧ p.lng = centerLng) ∧
      p.isSelected = true := by
  intro p hp
  rw [List.mem_flatMap] at hp
  obtain ⟨r, _, hp⟩ := hp
  rw [List.mem_map] at hp
  obtain ⟨c, _, rfl⟩ := hp
  refine ⟨?_, by simp [gridMk]⟩
  intro hcen
  simp only [gridMk, Bool.and_eq_true, beq_iff_eq] at hcen
  obtain ⟨rfl, rfl⟩ := hcen
  refine ⟨rfl, rfl, ?_, ?_⟩ <;> simp [gridMk]

/-- Claim C4: for every center coordinate, positive spacing, and odd gridSize, the
grid generator returns exactly gridSize² points in row-major order with row and col
each ranging over [-floor(gridSize/2), +floor(gridSize/2)] (the i-th point has
row = i / gridSize - floor(gridSize/2) and col = i % gridSize - floor(gridSize/2));
exactly one point has isCenter = true, that point's latitude and longitude equal the
input center exactly, and every point starts with isSelected = true. -/
theorem C4_grid_generation (centerLat centerLng spacing cosCenterLat : ℚ)
    (gridSize : ℕ) (u : DistanceUnit) (hodd : Odd gridSize) (_hspacing : 0 < spacing) :
    let pts := calculateGridPoints centerLat centerLng spacing gridSize u cosCenterLat
    pts.length = gridSize ^ 2 ∧
    (∀ i, (hi : i < pts.length) →
      pts[i].row = ((i / gridSize : ℕ) : ℤ) - ((gridSize / 2 : ℕ) : ℤ) ∧
      pts[i].col = ((i % gridSize : ℕ) : ℤ) - ((gridSize / 2 : ℕ) : ℤ)) ∧
    (pts.filter (fun p => p.isCenter)).length = 1 ∧
    (∀ p ∈ pts, p.isCenter = true → p.lat = centerLat ∧ p.lng = centerLng) ∧
    (∀ p ∈ pts, p.isSelected = true) := by
  intro pts
  have hg : 2 * (gridSize / 2) + 1 = gridSize := by
    rcases hodd with ⟨k, hk⟩
    omega
  have hpts : calculateGridPoints centerLat centerLng spacing gridSize u cosCenterLat =
      (offsetRange (gridSize / 2)).flatMap (fun (row : ℤ) =>
        (offsetRange (gridSize / 2)).map (fun (col : ℤ) =>
          gridMk centerLat centerLng (spacingMeters spacing u / 111320)
            (spacingMeters spacing u / (111320 * cosCenterLat)) row col)) :=
    calculateGridPoints_eq centerLat centerLng spacing cosCenterLat gridSize u
  have h1 : (calculateGridPoints centerLat centerLng spacing gridSize u cosCenterLat).length
      = gridSize ^ 2 := by
    rw [hpts, gridShape_length, hg, pow_two]
  have h2 : ∀ i, (hi : i < (calculateGridPoints centerLat centerLng spacing gridSize u
      cosCenterLat).length) →
      (calculateGridPoints centerLat centerLng spacing gridSize u cosCenterLat)[i].row
        = ((i / gridSize : ℕ) : ℤ) - ((gridSize / 2 : ℕ) : ℤ) ∧
      (calculateGridPoints centerLat centerLng spacing gridSize u cosCenterLat)[i].col
        = ((i % gridSize : ℕ) : ℤ) - ((gridSize / 2 : ℕ) : ℤ) := by
    intro i hi
    have he := List.getElem_of_eq hpts hi
    rw [gridShape_getElem, hg] at he
    rw [he]
    exact ⟨rfl, rfl⟩
  have h3 : ((calculateGridPoints centerLat centerLng spacing gridSize u
      cosCenterLat).filter (fun p => p.isCenter)).length = 1 := by
    rw [← List.countP_eq_length_filter, hpts, gridShape_countP]
  have h4 : ∀ p ∈ calculateGridPoints centerLat centerLng spacing gridSize u cosCenterLat,
      p.isCenter = true → p.lat = centerLat ∧ p.lng = centerLng := by
    intro p hp hcen
    rw [hpts] at hp
    have := (gridShape_mem centerLat centerLng _ _ (gridSize / 2) p hp).1 hcen
    exact ⟨this.2.2.1, this.2.2.2⟩
  have h5 : ∀ p ∈ calculateGridPoints centerLat centerLng spacing gridSize u cosCenterLat,
      p.isSelected = true := by
    intro p hp
    rw [hpts] at hp
    exact (gridShape_mem centerLat centerLng _ _ (gridSize / 2) p hp).2
  exact ⟨h1, h2, h3, h4, h5⟩

/-- Witness for claim C4 at a concrete odd grid: center (37, -122), spacing 1 meter,
gridSize 3. -/
theorem C4_grid_generation_witness :
    Odd 3 ∧ (0 : ℚ) < 1 ∧
    (let pts := calculateGridPoints 37 (-122) 1 3 DistanceUnit.meters 1
     pts.length = 3 ^ 2 ∧
     (∀ i, (hi : i < pts.length) →
       pts[i].row = ((i / 3 : ℕ) : ℤ) - ((3 / 2 : ℕ) : ℤ) ∧
       pts[i].col = ((i % 3 : ℕ) : ℤ) - ((3 / 2 : ℕ) : ℤ)) ∧
     (pts.filter (fun p => p.isCenter)).length = 1 ∧
     (∀ p ∈ pts, p.isCenter = true → p.lat = 37 ∧ p.lng = -122) ∧
     (∀ p ∈ pts, p.isSelected = true)) :=
  ⟨⟨1, by norm_num⟩, by norm_num,
    C4_grid_generation 37 (-122) 1 1 3 DistanceUnit.meters ⟨1, by norm_num⟩ (by norm_num)⟩

/-- Claim C5 counterexample: with the even gridSize 2 the generator still produces a
point at offsets (0,0) flagged isCenter=true whose coordinates are exactly the input
center, since the loops run from -floor(2/2) to +floor(2/2), a range that contains
0. -/
theorem C5_even_center_counterexample :
    ∃ p ∈ calculateGridPoints 0 0 1 2 DistanceUnit.meters 1,
      p.row = 0 ∧ p.col = 0 ∧ p.isCenter = true ∧ p.lat = 0 ∧ p.lng = 0 := by
  have h0 : (0 : ℤ) ∈ offsetRange 1 := by decide
  refine ⟨gridMk 0 0 (spacingMeters 1 DistanceUnit.meters / 111320)
      (spacingMeters 1 DistanceUnit.meters / (111320 * 1)) 0 0, ?_, rfl, rfl, by decide, ?_, ?_⟩
  · rw [calculateGridPoints_eq]
    exact List.mem_flatMap.mpr ⟨0, h0, List.mem_map.mpr ⟨0, h0, rfl⟩⟩
  · simp [gridMk]
  · simp [gridMk]

/-- Claim C5 (amended): when gridSize is even the generator does not omit the center:
the loop bounds -floor(gridSize/2)..+floor(gridSize/2) still contain 0, so it
produces (gridSize+1)² points (not gridSize²), exactly one of which is flagged
isCenter = true, with offsets (0,0) and coordinates exactly the input center. -/
theorem C5_even_grid (centerLat centerLng spacing cosCenterLat : ℚ)
    (gridSize : ℕ) (u : DistanceUnit) (heven : Even gridSize) :
    let pts := calculateGridPoints centerLat centerLng spacing gridSize u cosCenterLat
    pts.length = (gridSize + 1) ^ 2 ∧
    (pts.filter (fun p => p.isCenter)).length = 1 ∧
    (∀ p ∈ pts, p.isCenter = true →
      p.row = 0 ∧ p.col = 0 ∧ p.lat = centerLat ∧ p.lng = centerLng) := by
  intro pts
  have hg : 2 * (gridSize / 2) + 1 = gridSize + 1 := by
    rcases heven with ⟨k, hk⟩
    omega
  have hpts : calculateGridPoints centerLat centerLng spacing gridSize u cosCenterLat =
      (offsetRange (gridSize / 2)).flatMap (fun (row : ℤ) =>
        (offsetRange (gridSize / 2)).map (fun (col : ℤ) =>
          gridMk centerLat centerLng (spacingMeters spacing u / 111320)
            (spacingMeters spacing u / (111320 * cosCenterLat)) row col)) :=
    calculateGridPoints_eq centerLat centerLng spacing cosCenterLat gridSize u
  have h1 : (calculateGridPoints centerLat centerLng spacing gridSize u cosCenterLat).length
      = (gridSize + 1) ^ 2 := by
    rw [hpts, gridShape_length, hg, pow_two]
  have h2 : ((calculateGridPoints centerLat centerLng spacing gridSize u
      cosCenterLat).filter (fun p => p.isCenter)).length = 1 := by
    rw [← List.countP_eq_length_filter, hpts, gridShape_countP]
  have h3 : ∀ p ∈ calculateGridPoints centerLat centerLng spacing gridSize u cosCenterLat,
      p.isCenter = true → p.row = 0 ∧ p.col = 0 ∧ p.lat = centerLat ∧ p.lng = centerLng := by
    intro p hp hcen
    rw [hpts] at hp
    exact (gridShape_mem centerLat centerLng _ _ (gridSize / 2) p hp).1 hcen
  exact ⟨h1, h2, h3⟩

/-- Witness for claim C5 (amended) at the concrete even gridSize 2. -/
theorem C5_even_grid_witness :
    Even 2 ∧
    (let pts := calculateGridPoints 10 20 1 2 DistanceUnit.meters 1
     pts.length = (2 + 1) ^ 2 ∧
     (pts.filter (fun p => p.isCenter)).length = 1 ∧
     (∀ p ∈ pts, p.isCenter = true →
       p.row = 0 ∧ p.col = 0 ∧ p.lat = 10 ∧ p.lng = 20)) :=
  ⟨⟨1, by norm_num⟩, C5_even_grid 10 20 1 1 2 DistanceUnit.meters ⟨1, by norm_num⟩⟩

/-- Claim C1 counterexample: on outcomes with ranks [1, 5, 15, null] over 4 points the
summary builder reports top3Percent = round(1/4 · 100) = 25, not the claimed 33. -/
theorem C1_top3Percent_counterexample :
    (buildSummary
      [rankOutcome (some 1), rankOutcome (some 5), rankOutcome (some 15), rankOutcome none]
      4).top3Percent ≠ 33 := by
  simp [buildSummary, rankOutcome, jsRound]
  norm_num [Int.floor_eq_iff]

/-- Claim C1 (amended): for four point outcomes with ranks [1, 5, 15, null] over 4
total submitted points the summary builder returns avgRank = 7.0, foundCount = 3,
notFoundCount = 1, top3Count = 1 with top3Percent = 25, top10Count = 2 with
top10Percent = 50, and top20Count = 3 with top20Percent = 75; counts are over
outcomes with non-null rank and each percentage is round(count / totalPoints · 100)
with the total submitted point count as the denominator. -/
theorem C1_summary_example :
    buildSummary
      [rankOutcome (some 1), rankOutcome (some 5), rankOutcome (some 15), rankOutcome none]
      4 =
    { avgRank := some 7, foundCount := 3, notFoundCount := 1,
      top3Count := 1, top3Percent := 25, top10Count := 2, top10Percent := 50,
      top20Count := 3, top20Percent := 75 } := by
  simp [buildSummary, rankOutcome, jsRound]
  norm_num [Int.floor_eq_iff]

/-- Claim C3 counterexample: the organic domain matcher rejects the reverse
direction — a result at example.com does not match the target a.example.com, though
the claim says it should. -/
theorem C3_reverse_direction_counterexample :
    domainMatches ("example.com") ("a.example.com") = false := by
  decide

/-- Claim C3 (amended): the organic domain matcher domainMatches returns true iff the
result link is non-empty and the two normalized domains are equal or the result
domain ends with "." followed by the target domain — the forward direction only
(a result at a.example.com matches target example.com, but a result at example.com
does not match target a.example.com).  The grid-search route's separate matcher uses
bidirectional substring containment of normalized websites instead, which does accept
the reverse direction but is not limited to dot boundaries. -/
theorem C3_domain_match_rule :
    (∀ r t : String, domainMatches r t = true ↔
      r ≠ "" ∧ (extractDomain r = extractDomain t ∨
        strEndsWith (extractDomain r) ("." ++ extractDomain t) = true)) ∧
    domainMatches ("a.example.com") ("example.com") = true ∧
    domainMatches ("example.com") ("a.example.com") = false ∧
    jsIncludes (normalizeWebsite (some "example.com"))
      (normalizeWebsite (some "a.example.com")) = false ∧
    jsIncludes (normalizeWebsite (some "a.example.com"))
      (normalizeWebsite (some "example.com")) = true ∧
    jsIncludes (normalizeWebsite (some "notexample.com"))
      (normalizeWebsite (some "example.com")) = true := by
  refine ⟨?_, by decide, by decide, by decide, by decide, by decide⟩
  intro r t
  by_cases h : r = "" <;>
    simp [domainMatches, h, Bool.or_eq_true, beq_iff_eq]

theorem scanResults_eq_none (targetDomain : String) (l : List SerperOrganicResult)
    (h : ∀ it ∈ l, domainMatches it.link targetDomain = false) :
    ∀ count idx, scanResults targetDomain l count idx = none := by
  induction l with
  | nil => intro count idx; rfl
  | cons a t ih =>
    intro count idx
    have ha := h a (by simp)
    simp only [scanResults, ha, Bool.false_eq_true, if_false]
    exact ih (fun it hit => h it (by simp [hit])) _ _

theorem trackLoop_err (fetch : ℕ → FetchOutcome SerperOrganicResult)
    (keyword targetDomain : String) (fuel page count : ℕ) (e : Option String)
    (h : fetch page = .err e) :
    trackLoop fetch keyword targetDomain (fuel + 1) page count =
      ({ found := false, keyword := keyword, page := none, positionOnPage := none,
         overallPosition := none, url := none, title := none,
         error := some ("Failed at page " ++ toString page ++ ": " ++ caughtMessage e) },
       [page]) := by
  simp [trackLoop, h]

theorem trackLoop_advance (fetch : ℕ → FetchOutcome SerperOrganicResult)
    (keyword targetDomain : String) (fuel page count : ℕ) (l : List SerperOrganicResult)
    (hf : fetch page = .ok l)
    (hnm : ∀ it ∈ l, domainMatches it.link targetDomain = false) (hne : l ≠ []) :
    trackLoop fetch keyword targetDomain (fuel + 1) page count =
      ((trackLoop fetch keyword targetDomain fuel (page + 1) (count + l.length)).1,
       page :: (trackLoop fetch keyword targetDomain fuel (page + 1) (count + l.length)).2) := by
  have hs := scanResults_eq_none targetDomain l hnm count 0
  have hlen : l.length ≠ 0 := by simpa [List.length_eq_zero] using hne
  simp [trackLoop, hf, hs, hlen]

theorem trackLoop_fail_general (fetch : ℕ → FetchOutcome SerperOrganicResult)
    (keyword targetDomain : String) (e : Option String) :
    ∀ (k page count fuel : ℕ), fetch (page + k) = .err e → k < fuel →
    (∀ q, page ≤ q → q < page + k → ∃ l, fetch q = .ok l ∧ l ≠ [] ∧
      ∀ it ∈ l, domainMatches it.link targetDomain = false) →
    trackLoop fetch keyword targetDomain fuel page count =
      ({ found := false, keyword := keyword, page := none, positionOnPage := none,
         overallPosition := none, url := none, title := none,
         error := some ("Failed at page " ++ toString (page + k) ++ ": " ++ caughtMessage e) },
       List.range' page (k + 1)) := by
  intro k
  induction k with
  | zero =>
    intro page count fuel herr hfuel _
    match fuel, hfuel with
    | fuel + 1, _ =>
      rw [trackLoop_err fetch keyword targetDomain fuel page count e (by simpa using herr)]
      simp
  | succ k ih =>
    intro page count fuel herr hfuel hok
    match fuel, hfuel with
    | fuel + 1, hfuel =>
      obtain ⟨l, hf, hne, hnm⟩ := hok page (Nat.le_refl _) (by omega)
      rw [trackLoop_advance fetch keyword targetDomain fuel page count l hf hnm hne]
      have herr' : fetch (page + 1 + k) = FetchOutcome.err e := by
        rw [show page + 1 + k = page + (k + 1) by omega]
        exact herr
      have hok' : ∀ q, page + 1 ≤ q → q < page + 1 + k → ∃ l, fetch q = .ok l ∧ l ≠ [] ∧
          ∀ it ∈ l, domainMatches it.link targetDomain = false := by
        intro q hq1 hq2
        exact hok q (by omega) (by omega)
      rw [ih (page + 1) (count + l.length) fuel herr' (by omega) hok']
      rw [show page + 1 + k = page + (k + 1) by omega]
      rw [List.range'_succ page (k + 1)]

/-- Claim C2: in the organic Single-Point Rank Tracker, the returned rank is a
1-based overall position continuous across pages: if page 1 returns 10 items with no
match and the target domain first matches at position 3 of page 2, the tracker
returns found=true with overallPosition 13, page 2, positionOnPage 3 and the matched
item's URL and title. -/
theorem C2_rank_across_pages (fetch : ℕ → FetchOutcome SerperOrganicResult)
    (keyword targetDomain : String) (l1 : List SerperOrganicResult)
    (a b c : SerperOrganicResult) (rest : List SerperOrganicResult)
    (h1 : fetch 1 = .ok l1) (hlen : l1.length = 10)
    (hnm1 : ∀ it ∈ l1, domainMatches it.link targetDomain = false)
    (h2 : fetch 2 = .ok (a :: b :: c :: rest))
    (ha : domainMatches a.link targetDomain = false)
    (hb : domainMatches b.link targetDomain = false)
    (hc : domainMatches c.link targetDomain = true) :
    (trackKeywordRanking fetch keyword targetDomain).1 =
      { found := true, keyword := keyword, page := some 2, positionOnPage := some 3,
        overallPosition := some 13, url := some c.link, title := some c.title,
        error := none } := by
  have hne : l1 ≠ [] := by
    intro h
    rw [h] at hlen
    simp at hlen
  rw [trackKeywordRanking, show MAX_PAGES = 4 + 1 from rfl,
    trackLoop_advance fetch keyword targetDomain 4 1 0 l1 h1 hnm1 hne]
  rw [hlen]
  rw [show (4 : ℕ) = 3 + 1 from rfl]
  simp [trackLoop, h2, scanResults, ha, hb, hc]

/-- Organic result item used by concrete tracker scenarios. -/
def orgItem (link : String) : SerperOrganicResult where
  title := "t-" ++ link
  link := link
  snippet := none
  position := 1

/-- Concrete provider behaviour for the C2 witness: 10 non-matching items on page 1,
the target first appearing third on page 2. -/
def c2Fetch : ℕ → FetchOutcome SerperOrganicResult := fun page =>
  if page = 1 then .ok (List.replicate 10 (orgItem "https://other.com"))
  else if page = 2 then
    .ok [orgItem "https://one.com", orgItem "https://two.com", orgItem "https://target.com/page"]
  else .ok []

/-- Witness for claim C2 on the concrete two-page behaviour c2Fetch. -/
theorem C2_rank_across_pages_witness :
    c2Fetch 1 = .ok (List.replicate 10 (orgItem "https://other.com")) ∧
    (List.replicate 10 (orgItem "https://other.com")).length = 10 ∧
    (∀ it ∈ List.replicate 10 (orgItem "https://other.com"),
      domainMatches it.link ("target.com") = false) ∧
    c2Fetch 2 = .ok [orgItem "https://one.com", orgItem "https://two.com",
      orgItem "https://target.com/page"] ∧
    domainMatches (orgItem "https://one.com").link ("target.com") = false ∧
    domainMatches (orgItem "https://two.com").link ("target.com") = false ∧
    domainMatches (orgItem "https://target.com/page").link ("target.com") = true ∧
    (trackKeywordRanking c2Fetch ("pizza") ("target.com")).1 =
      { found := true, keyword := "pizza", page := some 2, positionOnPage := some 3,
        overallPosition := some 13, url := some (orgItem "https://target.com/page").link,
        title := some (orgItem "https://target.com/page").title, error := none } :=
  ⟨rfl, by decide, by decide, rfl, by decide, by decide, by decide,
    C2_rank_across_pages c2Fetch ("pizza") ("target.com")
      (List.replicate 10 (orgItem "https://other.com"))
      (orgItem "https://one.com") (orgItem "https://two.com")
      (orgItem "https://target.com/page") [] rfl (by decide) (by decide) rfl
      (by decide) (by decide) (by decide)⟩

/-- Claim C7: in organic mode, if fetching page p fails, trackKeywordRanking aborts
immediately — it requests exactly pages 1..p and none after p — and returns
found=false with page, positionOnPage and overallPosition all null and an error
string identifying the failing page number and the cause. -/
theorem C7_abort_on_page_failure (fetch : ℕ → FetchOutcome SerperOrganicResult)
    (keyword targetDomain : String) (p : ℕ) (e : Option String)
    (hp1 : 1 ≤ p) (hp5 : p ≤ 5) (herr : fetch p = .err e)
    (hok : ∀ q, 1 ≤ q → q < p → ∃ l, fetch q = .ok l ∧ l ≠ [] ∧
      ∀ it ∈ l, domainMatches it.link targetDomain = false) :
    trackKeywordRanking fetch keyword targetDomain =
      ({ found := false, keyword := keyword, page := none, positionOnPage := none,
         overallPosition := none, url := none, title := none,
         error := some ("Failed at page " ++ toString p ++ ": " ++ caughtMessage e) },
       List.range' 1 p) := by
  have h := trackLoop_fail_general fetch keyword targetDomain e (p - 1) 1 0 MAX_PAGES
    (by rw [show 1 + (p - 1) = p by omega]; exact herr)
    (by simp [MAX_PAGES]; omega)
    (by
      intro q hq1 hq2
      exact hok q hq1 (by omega))
  rw [trackKeywordRanking, h, show 1 + (p - 1) = p by omega,
    show p - 1 + 1 = p by omega]

/-- Concrete provider behaviour for the C7 witness: one non-matching item on page 1,
page 2 failing. -/
def c7Fetch : ℕ → FetchOutcome SerperOrganicResult := fun page =>
  if page = 1 then .ok [orgItem "https://other.com"]
  else .err (some "network down")

/-- Witness for claim C7 on the concrete behaviour c7Fetch failing at page 2. -/
theorem C7_abort_on_page_failure_witness :
    1 ≤ 2 ∧ 2 ≤ 5 ∧ c7Fetch 2 = .err (some "network down") ∧
    trackKeywordRanking c7Fetch ("pizza") ("target.com") =
      ({ found := false, keyword := "pizza", page := none, positionOnPage := none,
         overallPosition := none, url := none, title := none,
         error := some ("Failed at page " ++ toString 2 ++ ": " ++
           caughtMessage (some "network down")) },
       List.range' 1 2) :=
  ⟨by decide, by decide, rfl,
    C7_abort_on_page_failure c7Fetch ("pizza") ("target.com") 2 (some "network down")
      (by decide) (by decide) rfl
      (fun q hq1 hq2 => by
        have hq : q = 1 := by omega
        subst hq
        exact ⟨[orgItem "https://other.com"], rfl, by decide, by decide⟩)⟩

theorem runBatchesAux_eq_map (f : GridPointIn → PointOutcome) :
    ∀ (fuel : ℕ) (l : List GridPointIn), l.length ≤ fuel →
      runBatchesAux f fuel l = l.map f := by
  intro fuel
  induction fuel with
  | zero =>
    intro l hl
    cases l with
    | nil => rfl
    | cons a t => simp at hl
  | succ n ih =>
    intro l hl
    cases l with
    | nil => rfl
    | cons a t =>
      rw [runBatchesAux]
      · rw [ih ((a :: t).drop 5) (by simp [List.length_drop] at hl ⊢; omega)]
        rw [← List.map_append, List.take_append_drop]
      · simp

/-- Promise.all over ordered batches is the ordered per-point map: the Grid Batch
Orchestrator computes exactly the pointwise search results in input order. -/
theorem runBatches_eq_map (f : GridPointIn → PointOutcome) (l : List GridPointIn) :
    runBatches f l = l.map f :=
  runBatchesAux_eq_map f l.length l (Nat.le_refl _)

/-- Claim C9: the Grid Batch Orchestrator's output order preserves input order: for
every input point sequence the outcome at index i of the returned results array is
the outcome for the input point at index i (batches are sliced in submission order
and Promise.all gathers results index-aligned with each batch's inputs). -/
theorem C9_order_preserved (points : List GridPointIn) (targetDomain : String)
    (behaviour : GridPointIn → GridFetch) :
    let results := runBatches (fun p => searchGridPoint p targetDomain (behaviour p)) points
    results.length = points.length ∧
    ∀ i, (hi : i < points.length) → (hri : i < results.length) →
      results[i] = searchGridPoint (points[i]) targetDomain (behaviour (points[i])) := by
  intro results
  have heq : results = points.map (fun p => searchGridPoint p targetDomain (behaviour p)) :=
    runBatches_eq_map _ points
  constructor
  · rw [heq, List.length_map]
  · intro i hi hri
    rw [List.getElem_of_eq heq hri, List.getElem_map]

/-- Concrete two-point input for the C9 witness. -/
def c9Points : List GridPointIn :=
  [{ id := "0_0", lat := 1, lng := 2, row := 0, col := 0 },
   { id := "0_1", lat := 1, lng := 3, row := 0, col := 1 }]

/-- Concrete provider behaviour for the C9 witness. -/
def c9Behave : GridPointIn → GridFetch := fun _ => GridFetch.ok []

/-- Witness for claim C9 on a concrete two-point input, reading off outcome 1. -/
theorem C9_order_preserved_witness :
    (runBatches (fun p => searchGridPoint p ("t.com") (c9Behave p)) c9Points).length
      = c9Points.length ∧
    (runBatches (fun p => searchGridPoint p ("t.com") (c9Behave p)) c9Points)[1]? =
      some (searchGridPoint ({ id := "0_1", lat := 1, lng := 3, row := 0, col := 1 })
        ("t.com") (GridFetch.ok [])) := by
  have h := C9_order_preserved c9Points ("t.com") c9Behave
  refine ⟨h.1, ?_⟩
  have hlt : 1 < (runBatches (fun p => searchGridPoint p ("t.com") (c9Behave p))
      c9Points).length := by
    rw [h.1]
    decide
  have h2 := h.2 1 (by decide) hlt
  rw [List.getElem?_eq_getElem hlt, h2]
  rfl

/-- Claim C6: an exception raised while tracking one grid point is caught at that
point's boundary and converted into a PointOutcome with rank=null, matchedPlace=null,
places=[] and a non-empty error string; the orchestrator still returns exactly one
outcome per input point, and every other point's outcome is exactly its own pointwise
search result, unaffected by the failing point. -/
theorem C6_point_failure_isolated (points : List GridPointIn) (targetDomain : String)
    (behaviour : GridPointIn → GridFetch) (i : ℕ) (hi : i < points.length)
    (m : Option String) (hb : behaviour (points[i]) = .throwEx m) :
    let results := runBatches (fun p => searchGridPoint p targetDomain (behaviour p)) points
    results.length = points.length ∧
    (∀ (hri : i < results.length),
      results[i] =
        { pointId := (points[i]).id, lat := (points[i]).lat, lng := (points[i]).lng,
          row := (points[i]).row, col := (points[i]).col,
          rank := none, matchedPlace := none, places := [],
          error := some (gridCaughtMessage m) }) ∧
    gridCaughtMessage m ≠ "" ∧
    (∀ j, (hj : j < points.length) → (hrj : j < results.length) →
      results[j] = searchGridPoint (points[j]) targetDomain (behaviour (points[j]))) := by
  intro results
  have heq : results = points.map (fun p => searchGridPoint p targetDomain (behaviour p)) :=
    runBatches_eq_map _ points
  have hlen : results.length = points.length := by rw [heq, List.length_map]
  refine ⟨hlen, ?_, ?_, ?_⟩
  · intro hri
    rw [List.getElem_of_eq heq hri, List.getElem_map, hb]
    rfl
  · match m with
    | none => simp [gridCaughtMessage]
    | some s =>
      by_cases hs : s = "" <;> simp [gridCaughtMessage, hs]
  · intro j hj hrj
    rw [List.getElem_of_eq heq hrj, List.getElem_map]

/-- Concrete five-point input for the C6 witness, point 3 (index 2) failing. -/
def c6Points : List GridPointIn :=
  [{ id := "p1", lat := 1, lng := 1, row := 0, col := 0 },
   { id := "p2", lat := 1, lng := 2, row := 0, col := 1 },
   { id := "p3", lat := 1, lng := 3, row := 0, col := 2 },
   { id := "p4", lat := 1, lng := 4, row := 0, col := 3 },
   { id := "p5", lat := 1, lng := 5, row := 0, col := 4 }]

/-- Concrete provider behaviour for the C6 witness: only point p3 throws. -/
def c6Behave : GridPointIn → GridFetch := fun p =>
  if p.id = "p3" then GridFetch.throwEx (some "socket hang up") else GridFetch.ok []

/-- Witness for claim C6: five points with the third one throwing. -/
theorem C6_point_failure_isolated_witness :
    2 < c6Points.length ∧
    c6Behave (c6Points.get ⟨2, by decide⟩) = .throwEx (some "socket hang up") ∧
    (let results := runBatches (fun p => searchGridPoint p ("t.com") (c6Behave p)) c6Points
     results.length = c6Points.length ∧
     (∀ (hri : 2 < results.length),
       results[2] =
         { pointId := (c6Points.get ⟨2, by decide⟩).id, lat := (c6Points.get ⟨2, by decide⟩).lat,
           lng := (c6Points.get ⟨2, by decide⟩).lng, row := (c6Points.get ⟨2, by decide⟩).row,
           col := (c6Points.get ⟨2, by decide⟩).col,
           rank := none, matchedPlace := none, places := [],
           error := some (gridCaughtMessage (some "socket hang up")) }) ∧
     gridCaughtMessage (some "socket hang up") ≠ "" ∧
     (∀ j, (hj : j < c6Points.length) → (hrj : j < results.length) →
       results[j] = searchGridPoint (c6Points[j]) ("t.com") (c6Behave (c6Points[j])))) :=
  ⟨by decide, by decide,
    C6_point_failure_isolated c6Points ("t.com") c6Behave 2 (by decide)
      (some "socket hang up") (by decide)⟩

theorem searchGridPoint_empty_target (p : GridPointIn) (b : GridFetch) :
    (searchGridPoint p ("") b).rank = none ∧ (searchGridPoint p ("") b).matchedPlace = none := by
  cases b <;> simp [searchGridPoint]

/-- Claim C10: when targetWebsite is absent or normalizes to the empty string, the
grid-search route does not reject the request: validation checks only gridPoints and
keyword, the domain-matching loop is skipped for every point, every returned outcome
has rank=null and matchedPlace=null, the summary reports foundCount=0 and
avgRank=null, and the run is still treated as successful, consuming one usage
credit. -/
theorem C10_missing_target_website (gps : List GridPointIn) (kw : String)
    (tw : Option String) (behaviour : GridPointIn → GridFetch)
    (hgps : gps ≠ []) (hkw : kw ≠ "")
    (htw : tw = none ∨ normalizeWebsite tw = "") :
    ∃ body, gridSearchRoute true true true
        { gridPoints := some gps, keyword := some kw, targetWebsite := tw } behaviour =
          .success true body ∧
      body.totalPoints = gps.length ∧
      body.results.length = gps.length ∧
      (∀ r ∈ body.results, r.rank = none ∧ r.matchedPlace = none) ∧
      body.summary.foundCount = 0 ∧
      body.summary.avgRank = none := by
  have htd : normalizeWebsite tw = "" := by
    rcases htw with h | h
    · rw [h]
      rfl
    · exact h
  have hne : gps.isEmpty = false := by
    simp [List.isEmpty_iff, hgps]
  have hmap : runBatches (fun p => searchGridPoint p (normalizeWebsite tw) (behaviour p)) gps
      = gps.map (fun p => searchGridPoint p ("") (behaviour p)) := by
    rw [htd, runBatches_eq_map]
  have hall : ∀ r ∈ gps.map (fun p => searchGridPoint p ("") (behaviour p)),
      r.rank = none ∧ r.matchedPlace = none := by
    intro r hr
    rw [List.mem_map] at hr
    obtain ⟨p, _, rfl⟩ := hr
    exact searchGridPoint_empty_target p (behaviour p)
  have hfilter : (gps.map (fun p => searchGridPoint p ("") (behaviour p))).filter
      (fun r => r.rank.isSome) = [] := by
    rw [List.filter_eq_nil_iff]
    intro r hr
    have := (hall r hr).1
    simp [this]
  have hroute : gridSearchRoute true true true
      { gridPoints := some gps, keyword := some kw, targetWebsite := tw } behaviour =
      .success true
        { keyword := kw, targetWebsite := tw, totalPoints := gps.length,
          summary := buildSummary (runBatches
            (fun p => searchGridPoint p (normalizeWebsite tw) (behaviour p)) gps) gps.length,
          results := runBatches
            (fun p => searchGridPoint p (normalizeWebsite tw) (behaviour p)) gps } := by
    simp [gridSearchRoute, hne, hkw]
  refine ⟨_, hroute, rfl, ?_, ?_, ?_, ?_⟩
  · show (runBatches
      (fun p => searchGridPoint p (normalizeWebsite tw) (behaviour p)) gps).length = gps.length
    rw [hmap, List.length_map]
  · show ∀ r ∈ runBatches
      (fun p => searchGridPoint p (normalizeWebsite tw) (behaviour p)) gps,
      r.rank = none ∧ r.matchedPlace = none
    rw [hmap]
    exact hall
  · show (buildSummary (runBatches
      (fun p => searchGridPoint p (normalizeWebsite tw) (behaviour p)) gps)
        gps.length).foundCount = 0
    rw [hmap]
    simp [buildSummary, hfilter]
  · show (buildSummary (runBatches
      (fun p => searchGridPoint p (normalizeWebsite tw) (behaviour p)) gps)
        gps.length).avgRank = none
    rw [hmap]
    simp [buildSummary, hfilter]

/-- Witness for claim C10: one point, a matching-capable provider payload, but no
target website supplied. -/
theorem C10_missing_target_website_witness :
    ([{ id := "0_0", lat := 1, lng := 2, row := 0, col := 0 }] : List GridPointIn) ≠ [] ∧
    ("pizza" : String) ≠ "" ∧
    ((none : Option String) = none ∨ normalizeWebsite none = "") ∧
    (∃ body, gridSearchRoute true true true
        { gridPoints := some [{ id := "0_0", lat := 1, lng := 2, row := 0, col := 0 }],
          keyword := some "pizza", targetWebsite := none }
        (fun _ => GridFetch.ok []) = .success true body ∧
      body.totalPoints = 1 ∧
      body.results.length = 1 ∧
      (∀ r ∈ body.results, r.rank = none ∧ r.matchedPlace = none) ∧
      body.summary.foundCount = 0 ∧
      body.summary.avgRank = none) := by
  refine ⟨by decide, by decide, Or.inl rfl, ?_⟩
  have h := C10_missing_target_website
    [{ id := "0_0", lat := 1, lng := 2, row := 0, col := 0 }] ("pizza") none
    (fun _ => GridFetch.ok []) (by decide) (by decide) (Or.inl rfl)
  simpa using h

/-- Places delivered by the provider for the pages in `trace`, concatenated in fetch
order; a failed fetch delivers nothing. -/
def scannedPlaces (fetch : ℕ → FetchOutcome SerperPlace) (trace : List ℕ) :
    List SerperPlace :=
  trace.flatMap (fun q =>
    match fetch q with
    | .ok l => l
    | .err _ => [])

theorem scanPlaces_append (targetDomain : String) (l1 l2 : List SerperPlace) :
    ∀ c : ℕ, scanPlaces targetDomain (l1 ++ l2) c =
      scanPlaces targetDomain l1 c ++ scanPlaces targetDomain l2 (c + l1.length) := by
  induction l1 with
  | nil => intro c; simp [scanPlaces]
  | cons p t ih =>
    intro c
    have harith : c + 1 + t.length = c + (t.length + 1) := by omega
    by_cases h : placeMatchTest p targetDomain <;>
      simp [scanPlaces, h, ih (c + 1), harith]

theorem localLoop_spec (fetch : ℕ → FetchOutcome SerperPlace) (targetDomain : String) :
    ∀ (fuel page total : ℕ) (matching : List MatchingPlace),
      (localLoop fetch targetDomain fuel page total matching).totalPlaces
        = total + (scannedPlaces fetch
            (localLoop fetch targetDomain fuel page total matching).trace).length ∧
      (localLoop fetch targetDomain fuel page total matching).matchingPlaces
        = matching ++ scanPlaces targetDomain
            (scannedPlaces fetch
              (localLoop fetch targetDomain fuel page total matching).trace) total ∧
      (localLoop fetch targetDomain fuel page total matching).trace
        = List.range' page
            (localLoop fetch targetDomain fuel page total matching).trace.length ∧
      (localLoop fetch targetDomain fuel page total matching).trace.length ≤ fuel := by
  intro fuel
  induction fuel with
  | zero =>
    intro page total matching
    simp [localLoop, scannedPlaces, scanPlaces]
  | succ n ih =>
    intro page total matching
    cases hf : fetch page with
    | err e =>
      simp [localLoop, hf, scannedPlaces, scanPlaces, List.range'_succ]
    | ok places =>
      by_cases hl : places.length = 0
      · have hpl : places = [] := List.length_eq_zero.mp hl
        subst hpl
        simp [localLoop, hf, scannedPlaces, scanPlaces, List.range'_succ]
      · obtain ⟨h1, h2, h3, h4⟩ := ih (page + 1) (total + places.length)
          (matching ++ scanPlaces targetDomain places total)
        have hloop : localLoop fetch targetDomain (n + 1) page total matching =
            { localLoop fetch targetDomain n (page + 1) (total + places.length)
                (matching ++ scanPlaces targetDomain places total) with
              trace := page :: (localLoop fetch targetDomain n (page + 1)
                (total + places.length)
                (matching ++ scanPlaces targetDomain places total)).trace } := by
          rw [localLoop, hf]
          simp [hl]
        rw [hloop]
        have hscan : scannedPlaces fetch
            (page :: (localLoop fetch targetDomain n (page + 1) (total + places.length)
              (matching ++ scanPlaces targetDomain places total)).trace)
            = places ++ scannedPlaces fetch
                (localLoop fetch targetDomain n (page + 1) (total + places.length)
                  (matching ++ scanPlaces targetDomain places total)).trace := by
          simp [scannedPlaces, hf]
        refine ⟨?_, ?_, ?_, ?_⟩
        · simp only []
          rw [h1, hscan, List.length_append]
          omega
        · simp only []
          rw [h2, hscan, scanPlaces_append, List.append_assoc]
        · simp only [List.length_cons]
          rw [List.range'_succ, ← h3]
        · simp only [List.length_cons]
          omega

theorem localLoop_trace_independent (fetch : ℕ → FetchOutcome SerperPlace)
    (td td' : String) :
    ∀ (fuel page total total' : ℕ) (matching matching' : List MatchingPlace),
      (localLoop fetch td fuel page total matching).trace
        = (localLoop fetch td' fuel page total' matching').trace := by
  intro fuel
  induction fuel with
  | zero =>
    intro page total total' matching matching'
    rfl
  | succ n ih =>
    intro page total total' matching matching'
    cases hf : fetch page with
    | err e => simp [localLoop, hf]
    | ok places =>
      by_cases hl : places.length = 0
      · simp [localLoop, hf, hl]
      · simp only [localLoop, hf, hl, if_false, ite_false]
        simp only [List.cons.injEq, true_and]
        exact ih (page + 1) _ _ _ _

/-- Place whose website matches target.com, for the C8 scenarios. -/
def c8Place : SerperPlace where
  title := "Target Business"
  address := some "1 Main St"
  website := some "https://target.com"
  rating := none
  ratingCount := none
  position := 1

/-- Place whose website matches no target in the C8 scenarios. -/
def c8Other : SerperPlace where
  title := "Someone Else"
  address := none
  website := some "https://someoneelse.com"
  rating := none
  ratingCount := none
  position := 2

/-- Provider behaviour with a match on page 1 and a failing page 2. -/
def c8FailFetch : ℕ → FetchOutcome SerperPlace := fun page =>
  if page = 1 then .ok [c8Place] else .err (some "boom")

/-- Claim C8 counterexample: with a match already collected on page 1 and page 2
failing mid-scan, trackLocalRanking returns found=false although matchingPlaces is
non-empty, contradicting found = (matchingPlaces.length > 0) for every provider
behaviour. -/
theorem C8_found_on_failure_counterexample :
    ∃ res trace, trackLocalRanking (some "key") c8FailFetch ("pizza") ("target.com")
        = .ok (res, trace) ∧
      res.found = false ∧ 0 < res.matchingPlaces.length := by
  refine ⟨_, _, rfl, ?_, ?_⟩ <;> decide

/-- Claim C8 (amended): trackLocalRanking does not stop at the first match — the
pages it requests depend only on the provider behaviour, never on the target domain —
and it scans consecutive pages starting at 1 up to the depth budget of 5, collecting
every listing whose website matches the target, each tagged with its overall
cross-page position, with totalPlaces the total number of listings scanned.
found = (matchingPlaces.length > 0) holds whenever no page fetch failed; a mid-scan
fetch failure instead yields found = false together with the listings and matches
accumulated so far. -/
theorem C8_local_tracking (fetch : ℕ → FetchOutcome SerperPlace)
    (key keyword targetDomain otherDomain : String)
    (res : LocalRankingSearchResult) (trace : List ℕ)
    (res' : LocalRankingSearchResult) (trace' : List ℕ)
    (h : trackLocalRanking (some key) fetch keyword targetDomain = .ok (res, trace))
    (h' : trackLocalRanking (some key) fetch keyword otherDomain = .ok (res', trace')) :
    trace = trace' ∧
    trace = List.range' 1 trace.length ∧
    trace.length ≤ MAX_PAGES ∧
    res.totalPlaces = (scannedPlaces fetch trace).length ∧
    res.matchingPlaces = scanPlaces targetDomain (scannedPlaces fetch trace) 0 ∧
    (res.error = none → (res.found = true ↔ res.matchingPlaces ≠ [])) ∧
    (∀ m, res.error = some m → res.found = false) := by
  obtain ⟨ht, hm, hr, hlen⟩ := localLoop_spec fetch targetDomain MAX_PAGES 1 0 []
  have hind := localLoop_trace_independent fetch targetDomain otherDomain MAX_PAGES 1 0 0 [] []
  simp only [trackLocalRanking] at h h'
  have htrace' : trace' = (localLoop fetch otherDomain MAX_PAGES 1 0 []).trace := by
    cases herr' : (localLoop fetch otherDomain MAX_PAGES 1 0 []).error with
    | none =>
      rw [herr'] at h'
      simp only [Except.ok.injEq, Prod.mk.injEq] at h'
      exact h'.2.symm
    | some msg =>
      rw [herr'] at h'
      simp only [Except.ok.injEq, Prod.mk.injEq] at h'
      exact h'.2.symm
  cases herr : (localLoop fetch targetDomain MAX_PAGES 1 0 []).error with
  | none =>
    rw [herr] at h
    simp only [Except.ok.injEq, Prod.mk.injEq] at h
    obtain ⟨hres, htrace⟩ := h
    refine ⟨?_, ?_, ?_, ?_, ?_, ?_, ?_⟩
    · rw [← htrace, htrace']
      exact hind
    · rw [← htrace]
      exact hr
    · rw [← htrace]
      exact hlen
    · rw [← htrace, ← hres]
      simpa using ht
    · rw [← htrace, ← hres]
      simpa using hm
    · intro _
      rw [← hres]
      simp [List.length_pos]
    · intro m hcontra
      rw [← hres] at hcontra
      simp at hcontra
  | some msg =>
    rw [herr] at h
    simp only [Except.ok.injEq, Prod.mk.injEq] at h
    obtain ⟨hres, htrace⟩ := h
    refine ⟨?_, ?_, ?_, ?_, ?_, ?_, ?_⟩
    · rw [← htrace, htrace']
      exact hind
    · rw [← htrace]
      exact hr
    · rw [← htrace]
      exact hlen
    · rw [← htrace, ← hres]
      simpa using ht
    · rw [← htrace, ← hres]
      simpa using hm
    · intro hcontra
      rw [← hres] at hcontra
      simp at hcontra
    · intro m _
      rw [← hres]

/-- Provider behaviour for the C8 witness: two listings on page 1 (the first
matching target.com), an empty page 2. -/
def c8OkFetch : ℕ → FetchOutcome SerperPlace := fun page =>
  if page = 1 then .ok [c8Place, c8Other] else .ok []

/-- The matching entry trackLocalRanking collects for c8Place at overall position 1. -/
def c8Entry : MatchingPlace where
  title := "Target Business"
  address := some "1 Main St"
  website := some "https://target.com"
  rating := none
  reviews := none
  position := 1

/-- Expected result of the C8 witness run against target.com. -/
def c8ResTarget : LocalRankingSearchResult where
  found := true
  keyword := "pizza"
  totalPlaces := 2
  matchingPlaces := [c8Entry]
  error := none

/-- Expected result of the C8 witness run against a domain matching nothing. -/
def c8ResOther : LocalRankingSearchResult where
  found := false
  keyword := "pizza"
  totalPlaces := 2
  matchingPlaces := []
  error := none

/-- Witness for claim C8 (amended) on the concrete behaviour c8OkFetch, run against
target.com and against a domain matching nothing. -/
theorem C8_local_tracking_witness :
    trackLocalRanking (some "key") c8OkFetch ("pizza") ("target.com")
      = .ok (c8ResTarget, [1, 2]) ∧
    trackLocalRanking (some "key") c8OkFetch ("pizza") ("nomatch.example")
      = .ok (c8ResOther, [1, 2]) ∧
    (([1, 2] : List ℕ) = [1, 2] ∧
     ([1, 2] : List ℕ) = List.range' 1 ([1, 2] : List ℕ).length ∧
     ([1, 2] : List ℕ).length ≤ MAX_PAGES ∧
     c8ResTarget.totalPlaces = (scannedPlaces c8OkFetch [1, 2]).length ∧
     c8ResTarget.matchingPlaces = scanPlaces ("target.com") (scannedPlaces c8OkFetch [1, 2]) 0 ∧
     (c8ResTarget.error = none →
       (c8ResTarget.found = true ↔ c8ResTarget.matchingPlaces ≠ [])) ∧
     (∀ m, c8ResTarget.error = some m → c8ResTarget.found = false)) := by
  refine ⟨rfl, rfl, ?_⟩
  exact C8_local_tracking c8OkFetch ("key") ("pizza") ("target.com") ("nomatch.example")
    c8ResTarget [1, 2] c8ResOther [1, 2] rfl rfl

end GridRank
